import Mathlib

/-!
Verification of the autoclicker repository (autoclicker.py / autoclicker_evdev.py)
against its natural-language specification.

The Python sources are shallowly embedded: pynput key objects become the
inductive `PyKey`, JSON values become `JVal`, engine state (running flags,
hotkeys, rate-limiter table, capture flags) becomes the structure `Engine`,
finite floats (intervals, timestamps) are modelled as rationals - with a
separate `PyFloat` type carrying NaN and the infinities where the IEEE
comparison semantics matters (the interval validator) - and the update
pipeline becomes a pure function from its inputs (network responses,
injected write/backup/replace outcomes) and a small file-system model to an
outcome plus the resulting file system.
-/

namespace Autoclicker

/-! ## Keys (pynput model)

A pynput key is either a member of the `Key` enum (always has a `name`
attribute) or a `KeyCode` (has a `char` attribute, which may be `None`).
-/

inductive PyKey where
  | special (name : String)
  | code (char : Option String)
deriving DecidableEq

/-- The member names of the pynput `Key` enum (targets of `getattr(Key, name)`). -/
def keyNames : List String :=
  ["alt", "alt_gr", "alt_l", "alt_r", "backspace", "caps_lock",
   "cmd", "cmd_l", "cmd_r", "ctrl", "ctrl_l", "ctrl_r",
   "delete", "down", "end", "enter", "esc",
   "f1", "f2", "f3", "f4", "f5", "f6", "f7", "f8", "f9", "f10",
   "f11", "f12", "f13", "f14", "f15", "f16", "f17", "f18", "f19", "f20",
   "home", "insert", "left", "media_next", "media_play_pause",
   "media_previous", "media_volume_down", "media_volume_mute",
   "media_volume_up", "menu", "num_lock", "page_down", "page_up",
   "pause", "print_screen", "right", "scroll_lock",
   "shift", "shift_l", "shift_r", "space", "tab", "up"]

/-- Model of `str(key)` used as rate-limiter dictionary key: `str` of a
`Key` member renders as `Key.<name>`, of a `KeyCode` with a char as the
quoted char, of a `KeyCode` without a char as a vk form. -/
def pyStr : PyKey → String
  | .special n => "Key." ++ n
  | .code (some c) => "." ++ c ++ "."
  | .code none => "<unknown>"

/-! ## JSON values (for key serialization) -/

inductive JVal where
  | jnull
  | jbool (b : Bool)
  | jnum (n : Int)
  | jstr (s : String)
  | jarr (xs : List JVal)
  | jobj (fields : List (String × JVal))

/-- Python `dict.get`: first binding of the key, if any. -/
def dictGet (fields : List (String × JVal)) (k : String) : Option JVal :=
  match fields with
  | [] => none
  | (k', v) :: rest => if k' = k then some v else dictGet rest k

/-- `_serialize_key` (autoclicker.py lines 189-196, identical in
autoclicker_evdev.py lines 211-218): a key with a `name` attribute becomes
a tagged special dict, one with a `char` attribute a tagged char dict. -/
def serialize_key : PyKey → JVal
  | .special n => .jobj [("type", .jstr "special"), ("name", .jstr n)]
  | .code c =>
      .jobj [("type", .jstr "char"),
             ("char", match c with | some ch => .jstr ch | none => .jnull)]

/-- `_deserialize_key` (autoclicker.py lines 198-221, identical in
autoclicker_evdev.py lines 220-243). `getattr(Key, name, Key.f6)` is
modelled by membership in `keyNames`; `KeyCode.from_char(c)` by
`PyKey.code (some c)`. -/
def deserialize_key (key_data : JVal) : PyKey :=
  match key_data with
  | .jobj fields =>
    let keyType := (dictGet fields "type").getD (.jstr "special")
    match keyType with
    | .jstr t =>
      if t = "special" then
        match (dictGet fields "name").getD (.jstr "f6") with
        | .jstr n => if n ∈ keyNames then .special n else .special "f6"
        | _ => .special "f6"
      else if t = "char" then
        match dictGet fields "char" with
        | some (.jstr c) => if c.length = 1 then .code (some c) else .special "f6"
        | _ => .special "f6"
      else .special "f6"
    | _ => .special "f6"
  | _ => .special "f6"

/-- A key value in the domain of the spec data model `KeyIdentity`:
a `Key` enum member, or a `KeyCode` holding one single character. -/
def ValidKey : PyKey → Prop
  | .special n => n ∈ keyNames
  | .code c => ∃ ch, c = some ch ∧ ch.length = 1

instance : DecidablePred ValidKey := by
  intro k
  cases k with
  | special n => exact inferInstanceAs (Decidable (n ∈ keyNames))
  | code c =>
      cases c with
      | none =>
          apply Decidable.isFalse
          rintro ⟨ch, h, _⟩
          exact Option.noConfusion h
      | some ch =>
          by_cases h : ch.length = 1
          · exact Decidable.isTrue ⟨ch, rfl, h⟩
          · apply Decidable.isFalse
            rintro ⟨ch', h', hl⟩
            cases Option.some.injEq ch ch' ▸ h' with
            | refl => exact h hl

/-- The malformed serialized shapes enumerated by the claim: a non-dict
value; a dict whose tag is present but not a string or neither special nor
char; a special dict whose name field is missing, or present and not a
string; a char dict whose char field is missing, not a string, or not a
single character. -/
def MalformedKeyData (j : JVal) : Prop :=
  (∀ fields, j ≠ .jobj fields) ∨
  (∃ fields, j = .jobj fields ∧
    ((∃ v, dictGet fields "type" = some v ∧ ∀ s, v ≠ JVal.jstr s) ∨
     (∃ t, dictGet fields "type" = some (.jstr t) ∧ t ≠ "special" ∧ t ≠ "char") ∨
     ((dictGet fields "type").getD (.jstr "special") = .jstr "special" ∧
       (dictGet fields "name" = none ∨
        ∃ v, dictGet fields "name" = some v ∧ ∀ s, v ≠ JVal.jstr s)) ∨
     ((dictGet fields "type").getD (.jstr "special") = .jstr "char" ∧
       (dictGet fields "char" = none ∨
        (∃ v, dictGet fields "char" = some v ∧ ∀ s, v ≠ JVal.jstr s) ∨
        (∃ c, dictGet fields "char" = some (.jstr c) ∧ c.length ≠ 1)))))

/-! ## Interval validation (`_apply_interval`) -/

def MIN_INTERVAL : ℚ := 1/100
def MAX_INTERVAL : ℚ := 60

/-- `_apply_interval` (autoclicker.py lines 347-362, autoclicker_evdev.py
lines 440-463), after the entered string already parsed to a number: a
value below `MIN_INTERVAL` or above `MAX_INTERVAL` raises `ValueError`,
which the handler turns into an error dialog with no state change;
otherwise the stored interval is set to the value (and config saved).
Returns the stored interval afterwards and whether the value was accepted. -/
def apply_interval (stored : ℚ) (interval_value : ℚ) : ℚ × Bool :=
  if interval_value < MIN_INTERVAL then (stored, false)
  else if interval_value > MAX_INTERVAL then (stored, false)
  else (interval_value, true)

/-- A Python float as `float(interval_var.get())` can produce it: a finite
value (rationals stand in for the representable finite doubles), one of
the two infinities, or NaN. -/
inductive PyFloat where
  | num (q : ℚ)
  | inf
  | ninf
  | nan
deriving DecidableEq

/-- IEEE 754 `<` on floats: every comparison involving NaN is false. -/
def pyLt : PyFloat → PyFloat → Bool
  | .num a, .num b => a < b
  | .num _, .inf => true
  | .ninf, .num _ => true
  | .ninf, .inf => true
  | _, _ => false

/-- IEEE 754 `>` on floats. -/
def pyGt (a b : PyFloat) : Bool := pyLt b a

/-- IEEE 754 `<=` on floats: every comparison involving NaN is false. -/
def pyLe : PyFloat → PyFloat → Bool
  | .num a, .num b => a ≤ b
  | .num _, .inf => true
  | .inf, .inf => true
  | .ninf, .num _ => true
  | .ninf, .inf => true
  | .ninf, .ninf => true
  | _, _ => false

/-- `_apply_interval` on the actual float value the entered text parses
to: both guards are IEEE comparisons (`value < MIN_INTERVAL`,
`value > MAX_INTERVAL`), so a NaN input makes both false and falls
through to the accepting branch that stores the value. -/
def apply_interval_float (stored : PyFloat) (interval_value : PyFloat) : PyFloat × Bool :=
  if pyLt interval_value (.num MIN_INTERVAL) then (stored, false)
  else if pyGt interval_value (.num MAX_INTERVAL) then (stored, false)
  else (interval_value, true)

/-! ## Version comparison (`_version_newer`, autoclicker.py lines 608-665) -/

/-- Python `str.split(sep)` for a one-character separator: keeps empty
pieces, and the split of the empty string is one empty piece. -/
def splitOnChar (c : Char) : List Char → List (List Char)
  | [] => [[]]
  | x :: xs =>
    if x = c then [] :: splitOnChar c xs
    else
      match splitOnChar c xs with
      | r :: rs => (x :: r) :: rs
      | [] => [[x]]

/-- Digits of a decimal string to a number (`int` on an all-digit string). -/
def natOfDigits (ds : List Char) : Nat :=
  ds.foldl (fun acc c => 10 * acc + (c.toNat - 48)) 0

/-- The ASCII whitespace `int()` strips around a literal (code points
9-13, 28-31 and 32, the ASCII part of the Python space test). -/
def pyIsSpace (c : Char) : Bool :=
  (9 ≤ c.toNat ∧ c.toNat ≤ 13) ∨ (28 ≤ c.toNat ∧ c.toNat ≤ 31) ∨ c.toNat = 32

/-- Continuation of the digit grammar of an int literal: digits, with a
single underscore allowed only between two digits (PEP 515). -/
def groupedTail : List Char → Bool
  | [] => true
  | '_' :: c :: rest => c.isDigit && groupedTail rest
  | c :: rest => c.isDigit && groupedTail rest

/-- The full digit grammar of an int literal after the sign: nonempty,
starts with a digit, underscores only between digits. -/
def groupedDigits : List Char → Bool
  | [] => false
  | c :: rest => c.isDigit && groupedTail rest

/-- Python `int(s)` on a version component: strips surrounding
whitespace, allows one leading plus sign (a minus cannot occur here since
the component comes from the text before the first hyphen), then requires
digits with single PEP 515 underscores between them; the value is the
digits with the underscores removed. Faithful on ASCII strings, the
domain over which the version-ordering theorems quantify; the Unicode
decimal digits that `int()` additionally accepts are not modelled. -/
def pyIntOfChars (s : List Char) : Option Nat :=
  let t := ((s.dropWhile pyIsSpace).reverse.dropWhile pyIsSpace).reverse
  let t := match t with
    | '+' :: rest => rest
    | other => other
  if groupedDigits t then some (natOfDigits (t.filter Char.isDigit)) else none

/-- One component of the dotted main version: `int(part)` if it converts,
otherwise the leading digit run (`0` when there is none). -/
def versionComponent (part : List Char) : Nat :=
  match pyIntOfChars part with
  | some n => n
  | none => natOfDigits (part.takeWhile Char.isDigit)

/-- The comparable tuple built by `parse_version` for a nonempty version
string: major, minor, patch, `pre_release == ..` (so `stable = true` means
no pre-release suffix; in the Python tuple `False < True`), and the number
formed by all digits appearing in the pre-release suffix. -/
structure VTuple where
  major : Nat
  minor : Nat
  patch : Nat
  stable : Bool
  preNum : Nat
deriving DecidableEq

/-- `parse_version` on a (nonempty) version string: strip leading `v`
characters, split at the first hyphen into main part and pre-release,
parse the dot-separated main components padded to three, and extract the
digits of the pre-release suffix. -/
def parse_version (s : String) : VTuple :=
  let cs := s.toList.dropWhile (fun c => c = 'v')
  let main := cs.takeWhile (fun c => c ≠ '-')
  let pre := (cs.dropWhile (fun c => c ≠ '-')).drop 1
  let parts := (splitOnChar '.' main).map versionComponent
  let preDigits := pre.filter Char.isDigit
  { major := parts.getD 0 0
    minor := parts.getD 1 0
    patch := parts.getD 2 0
    stable := decide (pre = [])
    preNum := natOfDigits preDigits }

/-- Python `>` on bools: `True > False` only. -/
def boolGT (a b : Bool) : Bool := a && !b

/-- Python tuple `>` on the five-component version tuples. -/
def vGT (a b : VTuple) : Bool :=
  if a.major ≠ b.major then a.major > b.major
  else if a.minor ≠ b.minor then a.minor > b.minor
  else if a.patch ≠ b.patch then a.patch > b.patch
  else if a.stable ≠ b.stable then boolGT a.stable b.stable
  else a.preNum > b.preNum

/-- `_version_newer(latest, current)` (autoclicker.py lines 608-665).
An empty string takes the early-return branch of `parse_version`, whose
sentinel tuple carries a string (not a bool) in the fourth position:
comparing it against a normally parsed tuple whose first three components
are equal raises `TypeError` in Python, which the enclosing handler turns
into `False`. The four cases below reproduce exactly the observable
results of the Python comparison including that handler. -/
def version_newer (latest current : String) : Bool :=
  if latest = "" ∧ current = "" then false
  else if latest = "" then false
  else if current = "" then
    let p := parse_version latest
    decide (p.major ≠ 0 ∨ p.minor ≠ 0 ∨ p.patch ≠ 0)
  else vGT (parse_version latest) (parse_version current)

/-- A version string has a pre-release suffix when a hyphen occurs and
nonempty text follows the first hyphen. -/
def hasPreSuffix (s : String) : Bool :=
  let cs := s.toList.dropWhile (fun c => c = 'v')
  (cs.dropWhile (fun c => c ≠ '-')).drop 1 ≠ []

/-- The ASCII strings: on them the embedded `int()` and digit tests agree
with Python, whose behaviour on non-ASCII numerals depends on Unicode
digit tables the embedding does not carry. -/
def isAsciiString (s : String) : Bool :=
  s.toList.all (fun c => c.toNat ≤ 127)

/-! ## Engine state (autoclicker_evdev.py `DualAutoClicker`)

The mutable state of the engine that the dispatch, toggle and capture
methods read and write: the three running flags, the bound hotkeys, the
intervals, the rate-limiter table `last_hotkey_time` with its cooldown,
and the capture-workflow state. Timestamps and intervals are rationals. -/

structure Engine where
  clicker1_clicking : Bool
  clicker2_clicking : Bool
  keypresser_pressing : Bool
  clicker1_hotkey : PyKey
  clicker2_hotkey : PyKey
  keypresser_hotkey : PyKey
  emergency_stop_hotkey : PyKey
  clicker1_interval : ℚ
  clicker2_interval : ℚ
  keypresser_interval : ℚ
  last_hotkey_time : List (String × ℚ)
  hotkey_cooldown : ℚ
  listening_for_hotkey : Bool
  hotkey_target : Option String
  dispatch_active : Bool
  capture_active : Bool

/-- The engine state right after `__init__` (before any config load). -/
def initEngine : Engine where
  clicker1_clicking := false
  clicker2_clicking := false
  keypresser_pressing := false
  clicker1_hotkey := .special "f6"
  clicker2_hotkey := .special "f7"
  keypresser_hotkey := .special "f8"
  emergency_stop_hotkey := .special "f9"
  clicker1_interval := 1/10
  clicker2_interval := 1/2
  keypresser_interval := 1/10
  last_hotkey_time := []
  hotkey_cooldown := 1/5
  listening_for_hotkey := false
  hotkey_target := none
  dispatch_active := true
  capture_active := false

/-- Dictionary lookup in `last_hotkey_time`. -/
def lookupTime (table : List (String × ℚ)) (k : String) : Option ℚ :=
  match table with
  | [] => none
  | (k', v) :: rest => if k' = k then some v else lookupTime rest k

/-- Dictionary assignment `table[k] = v`. -/
def storeTime (table : List (String × ℚ)) (k : String) (v : ℚ) :
    List (String × ℚ) :=
  match table with
  | [] => [(k, v)]
  | (k', v') :: rest =>
      if k' = k then (k', v) :: rest else (k', v') :: storeTime rest k v

/-- `stop_clicker1` (autoclicker_evdev.py lines 744-749). -/
def stop_clicker1 (s : Engine) : Engine :=
  if s.clicker1_clicking then { s with clicker1_clicking := false } else s

/-- `stop_clicker2` (autoclicker_evdev.py lines 760-765). -/
def stop_clicker2 (s : Engine) : Engine :=
  if s.clicker2_clicking then { s with clicker2_clicking := false } else s

/-- `stop_keypresser` (autoclicker_evdev.py lines 828-833). -/
def stop_keypresser (s : Engine) : Engine :=
  if s.keypresser_pressing then { s with keypresser_pressing := false } else s

/-- `start_clicker1` (autoclicker_evdev.py lines 735-742). -/
def start_clicker1 (s : Engine) : Engine :=
  if ¬s.clicker1_clicking then { s with clicker1_clicking := true } else s

/-- `start_clicker2` (autoclicker_evdev.py lines 751-758). -/
def start_clicker2 (s : Engine) : Engine :=
  if ¬s.clicker2_clicking then { s with clicker2_clicking := true } else s

/-- `start_keypresser` (autoclicker_evdev.py lines 819-826). -/
def start_keypresser (s : Engine) : Engine :=
  if ¬s.keypresser_pressing then { s with keypresser_pressing := true } else s

/-- `toggle_clicker1` (autoclicker_evdev.py lines 713-722, identical in
autoclicker.py lines 465-474): stop if running, else stop the sibling
clicker 2 first and then start. -/
def toggle_clicker1 (s : Engine) : Engine :=
  if s.clicker1_clicking then stop_clicker1 s
  else start_clicker1 (stop_clicker2 s)

/-- `toggle_clicker2` (autoclicker_evdev.py lines 724-733, identical in
autoclicker.py lines 476-485): stop if running, else stop the sibling
clicker 1 first and then start. -/
def toggle_clicker2 (s : Engine) : Engine :=
  if s.clicker2_clicking then stop_clicker2 s
  else start_clicker2 (stop_clicker1 s)

/-- `toggle_keypresser` (autoclicker_evdev.py lines 807-817). -/
def toggle_keypresser (s : Engine) : Engine :=
  if s.keypresser_pressing then stop_keypresser s else start_keypresser s

/-- `emergency_stop_all` (autoclicker_evdev.py lines 855-860). -/
def emergency_stop_all (s : Engine) : Engine :=
  stop_keypresser (stop_clicker2 (stop_clicker1 s))

/-- The intermediate states a status poller can observe while
`toggle_clicker2` executes: the state on entry, after `stop_clicker1`
returns, and after `start_clicker2` returns (taking the not-running
branch, where the sibling is stopped before the start). -/
def toggle_clicker2_trace (s : Engine) : List Engine :=
  if s.clicker2_clicking then [s, stop_clicker2 s]
  else [s, stop_clicker1 s, start_clicker2 (stop_clicker1 s)]

/-- The rate-limiter test at the top of `on_hotkey_press`: the key was
seen before and the elapsed time since is below the cooldown. -/
def rateSuppressed (s : Engine) (key_str : String) (now : ℚ) : Bool :=
  match lookupTime s.last_hotkey_time key_str with
  | some t => decide (now - t < s.hotkey_cooldown)
  | none => false

/-- The dispatch tail of `on_hotkey_press` once the rate limiter passed:
record the time for the key, then emergency stop / toggle the slot whose
hotkey equals the key (emergency checked first), else do nothing more. -/
def dispatchKey (key : PyKey) (now : ℚ) (s : Engine) : Engine :=
  let s1 := { s with last_hotkey_time := storeTime s.last_hotkey_time (pyStr key) now }
  if key = s1.emergency_stop_hotkey then emergency_stop_all s1
  else if key = s1.clicker1_hotkey then toggle_clicker1 s1
  else if key = s1.clicker2_hotkey then toggle_clicker2 s1
  else if key = s1.keypresser_hotkey then toggle_keypresser s1
  else s1

/-- `on_hotkey_press` (autoclicker_evdev.py lines 683-711): drop the event
silently when the same key was dispatched less than the cooldown ago,
otherwise record the time and dispatch. The boolean reports whether the
event reached dispatch (false means dropped by the rate limiter). -/
def on_hotkey_press (key : PyKey) (now : ℚ) (s : Engine) : Engine × Bool :=
  if rateSuppressed s (pyStr key) now then (s, false)
  else (dispatchKey key now s, true)

/-- The outcome of `start_hotkey_capture`: blocked because a capture is
already in progress, or the capture workflow was started. -/
inductive CaptureOutcome where
  | alreadyCapturing
  | started
deriving DecidableEq

/-- `start_hotkey_capture` (autoclicker_evdev.py lines 548-571,
autoclicker.py lines 370-389): returns immediately when
`listening_for_hotkey` is already set; otherwise records the target,
stops the dispatch listener and starts the capture listener. -/
def start_hotkey_capture (s : Engine) (target : String) : Engine × CaptureOutcome :=
  if s.listening_for_hotkey then (s, .alreadyCapturing)
  else ({ s with listening_for_hotkey := true
                 hotkey_target := some target
                 dispatch_active := false
                 capture_active := true }, .started)

/-- `capture_hotkey` (autoclicker_evdev.py lines 573-610): no-op when not
capturing; otherwise stop the capture listener, clear the capturing flag,
bind the key to the recorded target (the final else is the emergency-stop
binding), and restart the dispatch listener. -/
def capture_hotkey (s : Engine) (key : PyKey) : Engine :=
  if ¬s.listening_for_hotkey then s
  else
    let s1 := { s with listening_for_hotkey := false, capture_active := false }
    let s2 :=
      if s1.hotkey_target = some "clicker1" then { s1 with clicker1_hotkey := key }
      else if s1.hotkey_target = some "clicker2" then { s1 with clicker2_hotkey := key }
      else if s1.hotkey_target = some "keypresser" then { s1 with keypresser_hotkey := key }
      else { s1 with emergency_stop_hotkey := key }
    { s2 with dispatch_active := true }

/-- The click/keypress worker loop observing an actuator error: it clears
its own running flag and exits (autoclicker_evdev.py lines 767-785,
787-805, 835-853). -/
def click_loop1_error (s : Engine) : Engine := { s with clicker1_clicking := false }

def click_loop2_error (s : Engine) : Engine := { s with clicker2_clicking := false }

def keypresser_loop_error (s : Engine) : Engine := { s with keypresser_pressing := false }

/-- `on_closing` effect on the running flags (autoclicker_evdev.py lines
879-905): stop everything. -/
def on_closing (s : Engine) : Engine :=
  stop_keypresser (stop_clicker2 (stop_clicker1 s))

/-- `_apply_interval` on the engine (autoclicker_evdev.py lines 440-463):
the validated value is stored for the targeted slot, out-of-range values
leave the state unchanged. -/
def apply_interval_engine (s : Engine) (target : String) (i : ℚ) : Engine × Bool :=
  if i < MIN_INTERVAL then (s, false)
  else if i > MAX_INTERVAL then (s, false)
  else if target = "clicker1_interval" then ({ s with clicker1_interval := i }, true)
  else if target = "clicker2_interval" then ({ s with clicker2_interval := i }, true)
  else if target = "keypresser_interval" then ({ s with keypresser_interval := i }, true)
  else (s, true)

/-- The states of the engine reachable from startup through its public
entry points: hotkey events, direct toggles, interval changes, the capture
workflow, worker-loop errors, and shutdown. -/
inductive Reach : Engine → Prop where
  | init : Reach initEngine
  | press (k : PyKey) (t : ℚ) {s : Engine} : Reach s → Reach (on_hotkey_press k t s).1
  | tog1 {s : Engine} : Reach s → Reach (toggle_clicker1 s)
  | tog2 {s : Engine} : Reach s → Reach (toggle_clicker2 s)
  | togKp {s : Engine} : Reach s → Reach (toggle_keypresser s)
  | estop {s : Engine} : Reach s → Reach (emergency_stop_all s)
  | beginCapture (target : String) {s : Engine} :
      Reach s → Reach (start_hotkey_capture s target).1
  | captured (k : PyKey) {s : Engine} : Reach s → Reach (capture_hotkey s k)
  | interval (target : String) (i : ℚ) {s : Engine} :
      Reach s → Reach (apply_interval_engine s target i).1
  | loopErr1 {s : Engine} : Reach s → Reach (click_loop1_error s)
  | loopErr2 {s : Engine} : Reach s → Reach (click_loop2_error s)
  | loopErrKp {s : Engine} : Reach s → Reach (keypresser_loop_error s)
  | closing {s : Engine} : Reach s → Reach (on_closing s)

/-- The MutexGroup invariant for the two mouse clickers: at most one of
them runs at any instant. -/
def clickerMutex (s : Engine) : Prop :=
  ¬(s.clicker1_clicking = true ∧ s.clicker2_clicking = true)

/-! ## Update pipeline (`_apply_update`, autoclicker.py lines 748-901)

The surrounding world is made explicit: the two HTTP fetches are inputs,
SHA-256 is an abstract hash function parameter, and the three fallible
file operations (write temp, copy backup, atomic replace) take injected
success bits plus the bytes that actually land in the temp file, so the
re-read verification step is meaningful. The file system tracks the bytes
of the target artifact, of the temp file, and of the backup. -/

/-- Result of an HTTP fetch: a body, an `HTTPError` with a status code, or
a transport-level `URLError`. -/
inductive FetchResult (α : Type) where
  | ok (body : α)
  | httpError (code : Nat)
  | urlError
deriving DecidableEq

/-- The files `_apply_update` may touch. -/
structure UpdateFS where
  target : List Nat
  temp : Option (List Nat)
  backup : Option (List Nat)
deriving DecidableEq

/-- The user-visible outcome of `_apply_update`, one constructor per
dialog the code can show. `abortedNoChecksum` is the dedicated warning
dialog titled Update Aborted shown on a 404 for the checksum resource;
`failedUnexpected` is the generic error dialog titled Update Failed shown
when an unanticipated exception reaches the outer handler. -/
inductive UpdateOutcome where
  | abortedNoChecksum
  | failedUnexpected (message : String)
  | networkError
  | securityError (expected computed : String)
  | failedWrite
  | failedVerify
  | failedBackup
  | failedReplace
  | complete
deriving DecidableEq

structure UpdateResult where
  outcome : UpdateOutcome
  fs : UpdateFS
  reachedDownload : Bool
deriving DecidableEq

/-- Python `str.split()` with no argument: split on whitespace runs,
no empty tokens. -/
def pyWords (cs : List Char) : List (List Char) :=
  match cs with
  | [] => []
  | c :: rest =>
    if c.isWhitespace then pyWords rest
    else
      match pyWords rest with
      | [] => [[c]]
      | w :: ws =>
        match rest with
        | [] => [[c]]
        | r :: _ => if r.isWhitespace then [c] :: w :: ws else (c :: w) :: ws

/-- Membership in the lowercase hex alphabet of the format check. -/
def isLowerHexDigit (c : Char) : Bool :=
  ('0' ≤ c ∧ c ≤ '9') ∨ ('a' ≤ c ∧ c ≤ 'f')

/-- Python `str.lower()` restricted to ASCII. -/
def pyLower (s : String) : String :=
  String.mk (s.toList.map fun c => if 'A' ≤ c ∧ c ≤ 'Z' then Char.ofNat (c.toNat + 32) else c)

/-- The checksum parsing inside `_apply_update` (lines 779-784): first
whitespace token of the body, lowercased; `none` when the body has no
token at all (`split()[0]` raises `IndexError`). -/
def parseChecksumBody (body : String) : Option String :=
  match pyWords body.toList with
  | [] => none
  | w :: _ => some (pyLower (String.mk w))

/-- The format validation (line 783): exactly 64 characters, all lowercase
hexadecimal digits. -/
def validChecksum (c : String) : Bool :=
  c.length = 64 && c.toList.all isLowerHexDigit

/-- `_apply_update` (autoclicker.py lines 748-901) as a function of the
checksum fetch result, the artifact fetch result, the abstract hash,
the injected file-operation outcomes and the file system. Every exit path
except the successful rename removes the temp file (the `finally` block). -/
def apply_update (hash : List Nat → String)
    (checksumResp : FetchResult String)
    (downloadResp : FetchResult (List Nat))
    (writeOk : Bool) (written : List Nat)
    (backupOk replaceOk : Bool)
    (fs : UpdateFS) : UpdateResult :=
  match checksumResp with
  | .httpError code =>
      if code = 404 then ⟨.abortedNoChecksum, fs, false⟩
      else ⟨.networkError, fs, false⟩
  | .urlError => ⟨.networkError, fs, false⟩
  | .ok body =>
    match parseChecksumBody body with
    | none => ⟨.failedUnexpected "IndexError: list index out of range", fs, false⟩
    | some expected =>
      if ¬validChecksum expected then
        ⟨.failedUnexpected "ValueError: Invalid checksum format - not a valid SHA256 hash",
         fs, false⟩
      else
        match downloadResp with
        | .httpError _ => ⟨.networkError, fs, true⟩
        | .urlError => ⟨.networkError, fs, true⟩
        | .ok content =>
          let computed := pyLower (hash content)
          if computed ≠ expected then
            ⟨.securityError expected computed, fs, true⟩
          else if ¬writeOk then
            ⟨.failedWrite, { fs with temp := none }, true⟩
          else
            let fs1 : UpdateFS := { fs with temp := some written }
            if pyLower (hash written) ≠ expected then
              ⟨.failedVerify, { fs1 with temp := none }, true⟩
            else if ¬backupOk then
              ⟨.failedBackup, { fs1 with temp := none }, true⟩
            else
              let fs2 : UpdateFS := { fs1 with backup := some fs.target }
              if ¬replaceOk then
                ⟨.failedReplace, { fs2 with temp := none }, true⟩
              else
                ⟨.complete, { fs2 with target := written, temp := none }, true⟩

/-! ## Helper lemmas: normal forms of the engine operations -/

theorem stop_clicker1_eq (s : Engine) :
    stop_clicker1 s = { s with clicker1_clicking := false } := by
  cases s
  rename_i c1 c2 kp h1 h2 h3 he i1 i2 i3 tab cd lf ht da ca
  cases c1 <;> simp [stop_clicker1]

theorem stop_clicker2_eq (s : Engine) :
    stop_clicker2 s = { s with clicker2_clicking := false } := by
  cases s
  rename_i c1 c2 kp h1 h2 h3 he i1 i2 i3 tab cd lf ht da ca
  cases c2 <;> simp [stop_clicker2]

theorem stop_keypresser_eq (s : Engine) :
    stop_keypresser s = { s with keypresser_pressing := false } := by
  cases s
  rename_i c1 c2 kp h1 h2 h3 he i1 i2 i3 tab cd lf ht da ca
  cases kp <;> simp [stop_keypresser]

theorem start_clicker1_eq (s : Engine) :
    start_clicker1 s = { s with clicker1_clicking := true } := by
  cases s
  rename_i c1 c2 kp h1 h2 h3 he i1 i2 i3 tab cd lf ht da ca
  cases c1 <;> simp [start_clicker1]

theorem start_clicker2_eq (s : Engine) :
    start_clicker2 s = { s with clicker2_clicking := true } := by
  cases s
  rename_i c1 c2 kp h1 h2 h3 he i1 i2 i3 tab cd lf ht da ca
  cases c2 <;> simp [start_clicker2]

theorem start_keypresser_eq (s : Engine) :
    start_keypresser s = { s with keypresser_pressing := true } := by
  cases s
  rename_i c1 c2 kp h1 h2 h3 he i1 i2 i3 tab cd lf ht da ca
  cases kp <;> simp [start_keypresser]

theorem emergency_stop_all_eq (s : Engine) :
    emergency_stop_all s =
      { s with clicker1_clicking := false, clicker2_clicking := false,
               keypresser_pressing := false } := by
  simp [emergency_stop_all, stop_clicker1_eq, stop_clicker2_eq, stop_keypresser_eq]

theorem toggle_clicker1_eq (s : Engine) :
    toggle_clicker1 s =
      if s.clicker1_clicking then { s with clicker1_clicking := false }
      else { s with clicker1_clicking := true, clicker2_clicking := false } := by
  simp [toggle_clicker1, stop_clicker1_eq, start_clicker1_eq, stop_clicker2_eq]

theorem toggle_clicker2_eq (s : Engine) :
    toggle_clicker2 s =
      if s.clicker2_clicking then { s with clicker2_clicking := false }
      else { s with clicker2_clicking := true, clicker1_clicking := false } := by
  simp [toggle_clicker2, stop_clicker2_eq, start_clicker2_eq, stop_clicker1_eq]

theorem toggle_keypresser_eq (s : Engine) :
    toggle_keypresser s =
      if s.keypresser_pressing then { s with keypresser_pressing := false }
      else { s with keypresser_pressing := true } := by
  simp [toggle_keypresser, stop_keypresser_eq, start_keypresser_eq]

theorem lookupTime_store (tab : List (String × ℚ)) (k : String) (v : ℚ) :
    lookupTime (storeTime tab k v) k = some v := by
  induction tab with
  | nil => simp [storeTime, lookupTime]
  | cons hd tl ih =>
      obtain ⟨k', v'⟩ := hd
      by_cases h : k' = k <;> simp [storeTime, lookupTime, h, ih]

/-- `dispatchKey` only rewrites the rate-limiter table entry for the key
it handles; cooldown and table shape are otherwise untouched. -/
theorem dispatchKey_table (k : PyKey) (t : ℚ) (s : Engine) :
    (dispatchKey k t s).last_hotkey_time = storeTime s.last_hotkey_time (pyStr k) t := by
  simp only [dispatchKey]
  split_ifs <;>
    simp [emergency_stop_all_eq, toggle_clicker1_eq, toggle_clicker2_eq,
          toggle_keypresser_eq, apply_ite]

theorem dispatchKey_cooldown (k : PyKey) (t : ℚ) (s : Engine) :
    (dispatchKey k t s).hotkey_cooldown = s.hotkey_cooldown := by
  simp only [dispatchKey]
  split_ifs <;>
    simp [emergency_stop_all_eq, toggle_clicker1_eq, toggle_clicker2_eq,
          toggle_keypresser_eq, apply_ite]

/-! ## Helper lemmas: the clicker mutex invariant -/

theorem mutex_toggle1 (s : Engine) : clickerMutex (toggle_clicker1 s) := by
  rw [toggle_clicker1_eq]
  split_ifs <;> simp [clickerMutex]

theorem mutex_toggle2 (s : Engine) : clickerMutex (toggle_clicker2 s) := by
  rw [toggle_clicker2_eq]
  split_ifs <;> simp [clickerMutex]

theorem mutex_dispatchKey (k : PyKey) (t : ℚ) (s : Engine)
    (h : clickerMutex s) : clickerMutex (dispatchKey k t s) := by
  simp only [dispatchKey]
  split_ifs
  · simp [emergency_stop_all_eq, clickerMutex]
  · exact mutex_toggle1 _
  · exact mutex_toggle2 _
  · rw [toggle_keypresser_eq]
    split_ifs <;> simpa [clickerMutex] using h
  · simpa [clickerMutex] using h

/-- The MutexGroup invariant holds in every reachable engine state. -/
theorem reach_mutex : ∀ s : Engine, Reach s → clickerMutex s := by
  intro s h
  induction h with
  | init => simp [clickerMutex, initEngine]
  | press k t hr ih =>
      rename_i s'
      by_cases hs : rateSuppressed s' (pyStr k) t
      · simpa [on_hotkey_press, hs] using ih
      · simpa [on_hotkey_press, hs] using mutex_dispatchKey k t s' ih
  | tog1 hr ih => exact mutex_toggle1 _
  | tog2 hr ih => exact mutex_toggle2 _
  | togKp hr ih =>
      rename_i s'
      rw [toggle_keypresser_eq]
      split_ifs <;> simpa [clickerMutex] using ih
  | estop hr ih => simp [emergency_stop_all_eq, clickerMutex]
  | beginCapture target hr ih =>
      rename_i s'
      simp only [start_hotkey_capture]
      split_ifs <;> simpa [clickerMutex] using ih
  | captured k hr ih =>
      rename_i s'
      simp only [capture_hotkey]
      split_ifs <;> simpa [clickerMutex] using ih
  | interval target i hr ih =>
      rename_i s'
      simp only [apply_interval_engine]
      split_ifs <;> simpa [clickerMutex] using ih
  | loopErr1 hr ih => simp [click_loop1_error, clickerMutex]
  | loopErr2 hr ih => simp [click_loop2_error, clickerMutex]
  | loopErrKp hr ih =>
      rename_i s'
      simpa [keypresser_loop_error, clickerMutex] using ih
  | closing hr ih =>
      simp [on_closing, stop_clicker1_eq, stop_clicker2_eq, stop_keypresser_eq,
            clickerMutex]

/-! ## Claim theorems -/

/-- C1: the two mouse clickers are mutually exclusive. In every reachable
engine state at most one of the two clickers is running, and from any
reachable state in which clicker 1 runs, `toggle_clicker2` first stops
clicker 1 and then starts clicker 2 - afterwards clicker 1 is stopped and
clicker 2 runs, and every intermediate state of the call keeps the mutex
(at no point are both running flags true). -/
theorem C1_clicker_mutual_exclusion :
    (∀ s : Engine, Reach s → clickerMutex s) ∧
    (∀ s : Engine, Reach s → s.clicker1_clicking = true →
      (toggle_clicker2 s).clicker1_clicking = false ∧
      (toggle_clicker2 s).clicker2_clicking = true ∧
      ∀ s' ∈ toggle_clicker2_trace s, clickerMutex s') := by
  refine ⟨reach_mutex, ?_⟩
  intro s hr h1
  have hm := reach_mutex s hr
  have h2 : s.clicker2_clicking = false := by
    cases hb : s.clicker2_clicking
    · rfl
    · exact absurd ⟨h1, hb⟩ hm
  refine ⟨?_, ?_, ?_⟩
  · rw [toggle_clicker2_eq]; simp [h2]
  · rw [toggle_clicker2_eq]; simp [h2]
  · intro s' hs'
    simp only [toggle_clicker2_trace, h2, if_neg Bool.false_ne_true,
      List.mem_cons, List.not_mem_nil, or_false] at hs'
    rcases hs' with rfl | rfl | rfl
    · exact hm
    · simp [stop_clicker1_eq, clickerMutex]
    · simp [start_clicker2_eq, stop_clicker1_eq, clickerMutex]

/-- Witness for C1 at a concrete reachable state: after pressing F6 once
from startup, clicker 1 runs; toggling clicker 2 then stops clicker 1 and
starts clicker 2. -/
theorem C1_clicker_mutual_exclusion_witness :
    (toggle_clicker2 (on_hotkey_press (PyKey.special "f6") 0 initEngine).1).clicker1_clicking
        = false ∧
    (toggle_clicker2 (on_hotkey_press (PyKey.special "f6") 0 initEngine).1).clicker2_clicking
        = true :=
  ⟨(C1_clicker_mutual_exclusion.2 _ (Reach.press _ _ Reach.init) (by decide)).1,
   (C1_clicker_mutual_exclusion.2 _ (Reach.press _ _ Reach.init) (by decide)).2.1⟩

/-- C5: the claim is right about the intent but the code has a slip. The
guards of `_apply_interval` are IEEE float comparisons and both are false
for NaN, so a NaN input - a value that does not satisfy
0.01 <= i <= 60.0 - is accepted and stored, mutating the state with an
out-of-range interval where the claim requires rejection without
mutation. This theorem evaluates the validator at the failing input. -/
theorem C5_interval_nan_code_bug :
    apply_interval_float (.num (1/10)) .nan = (.nan, true) ∧
    pyLe (.num MIN_INTERVAL) .nan = false ∧
    pyLe .nan (.num MAX_INTERVAL) = false := by
  refine ⟨?_, rfl, rfl⟩
  rfl

/-- On finite values the validator does behave as claim C5 states:
acceptance exactly on the closed range from 0.01 to 60.0, with the stored
state unchanged on rejection - the NaN slip is the only deviation. Stated
both for the consolidated validator on a stored value and for the
engine-level `_apply_interval` of each slot, over the rational model of
the finite floats. -/
theorem apply_interval_finite_ok (stored i : ℚ) (s : Engine) (target : String) :
    ((apply_interval stored i).2 = true ↔ MIN_INTERVAL ≤ i ∧ i ≤ MAX_INTERVAL) ∧
    (apply_interval stored i).1
      = (if MIN_INTERVAL ≤ i ∧ i ≤ MAX_INTERVAL then i else stored) ∧
    ((apply_interval_engine s target i).2 = true ↔ MIN_INTERVAL ≤ i ∧ i ≤ MAX_INTERVAL) ∧
    (apply_interval_engine s "clicker1_interval" i).1
      = (if MIN_INTERVAL ≤ i ∧ i ≤ MAX_INTERVAL then { s with clicker1_interval := i } else s) ∧
    (apply_interval_engine s "clicker2_interval" i).1
      = (if MIN_INTERVAL ≤ i ∧ i ≤ MAX_INTERVAL then { s with clicker2_interval := i } else s) ∧
    (apply_interval_engine s "keypresser_interval" i).1
      = (if MIN_INTERVAL ≤ i ∧ i ≤ MAX_INTERVAL then { s with keypresser_interval := i } else s) := by
  by_cases h1 : i < MIN_INTERVAL
  · have hn : ¬(MIN_INTERVAL ≤ i ∧ i ≤ MAX_INTERVAL) := fun hc => absurd hc.1 (not_le.mpr h1)
    simp [apply_interval, apply_interval_engine, h1, hn]
  · by_cases h2 : i > MAX_INTERVAL
    · have hn : ¬(MIN_INTERVAL ≤ i ∧ i ≤ MAX_INTERVAL) := fun hc => absurd hc.2 (not_le.mpr h2)
      simp [apply_interval, apply_interval_engine, h1, h2, hn]
    · have hy : MIN_INTERVAL ≤ i ∧ i ≤ MAX_INTERVAL := ⟨not_lt.mp h1, not_lt.mp h2⟩
      refine ⟨?_, ?_, ?_, ?_, ?_, ?_⟩
      · simp [apply_interval, h1, h2, hy]
      · simp [apply_interval, h1, h2, hy]
      · simp only [apply_interval_engine, if_neg h1, if_neg h2]
        split_ifs <;> simp [hy]
      · simp only [apply_interval_engine, if_neg h1, if_neg h2]
        split_ifs with hq <;> simp_all [hy]
      · simp only [apply_interval_engine, if_neg h1, if_neg h2]
        split_ifs with hq <;> simp_all [hy]
      · simp only [apply_interval_engine, if_neg h1, if_neg h2]
        split_ifs with hq <;> simp_all [hy]

/-- C6: a dispatched key event equal to the emergency-stop hotkey (one
that passes the rate limiter, which the handler applies before any
matching) stops clicker 1, clicker 2 and the key presser, whatever their
prior state, and toggles nothing on. -/
theorem C6_emergency_stop (s : Engine) (now : ℚ)
    (h : rateSuppressed s (pyStr s.emergency_stop_hotkey) now = false) :
    (on_hotkey_press s.emergency_stop_hotkey now s).1.clicker1_clicking = false ∧
    (on_hotkey_press s.emergency_stop_hotkey now s).1.clicker2_clicking = false ∧
    (on_hotkey_press s.emergency_stop_hotkey now s).1.keypresser_pressing = false ∧
    (on_hotkey_press s.emergency_stop_hotkey now s).2 = true := by
  simp [on_hotkey_press, h, dispatchKey, emergency_stop_all_eq]

/-- Witness for C6 at a concrete state with clicker 1 running: pressing F9
stops everything. -/
theorem C6_emergency_stop_witness :
    (on_hotkey_press (toggle_clicker1 initEngine).emergency_stop_hotkey 0
        (toggle_clicker1 initEngine)).1.clicker1_clicking = false ∧
    (on_hotkey_press (toggle_clicker1 initEngine).emergency_stop_hotkey 0
        (toggle_clicker1 initEngine)).1.clicker2_clicking = false ∧
    (on_hotkey_press (toggle_clicker1 initEngine).emergency_stop_hotkey 0
        (toggle_clicker1 initEngine)).1.keypresser_pressing = false ∧
    (on_hotkey_press (toggle_clicker1 initEngine).emergency_stop_hotkey 0
        (toggle_clicker1 initEngine)).2 = true :=
  C6_emergency_stop (toggle_clicker1 initEngine) 0 (by decide)

/-- C7: with the 200 ms cooldown, of two key events for the same key whose
timestamps are less than the cooldown apart, only the first is dispatched;
the second is dropped silently, changing no engine state. -/
theorem C7_rate_limit (k : PyKey) (t1 t2 : ℚ) (s : Engine)
    (hcool : s.hotkey_cooldown = 1/5)
    (hfirst : rateSuppressed s (pyStr k) t1 = false)
    (hgap : t2 - t1 < 1/5) :
    (on_hotkey_press k t1 s).2 = true ∧
    on_hotkey_press k t2 (on_hotkey_press k t1 s).1
      = ((on_hotkey_press k t1 s).1, false) := by
  have h1 : (on_hotkey_press k t1 s).1 = dispatchKey k t1 s := by
    simp [on_hotkey_press, hfirst]
  have hsup : rateSuppressed (dispatchKey k t1 s) (pyStr k) t2 = true := by
    simp [rateSuppressed, dispatchKey_table, lookupTime_store, dispatchKey_cooldown, hcool]
    simpa using hgap
  refine ⟨by simp [on_hotkey_press, hfirst], ?_⟩
  rw [h1]
  simp [on_hotkey_press, hsup]

/-- Witness for C7: from startup, an F6 press at time 0 dispatches, a
second F6 press 50 ms later is dropped with no state change. -/
theorem C7_rate_limit_witness :
    (on_hotkey_press (PyKey.special "f6") 0 initEngine).2 = true ∧
    on_hotkey_press (PyKey.special "f6") (1/20)
        (on_hotkey_press (PyKey.special "f6") 0 initEngine).1
      = ((on_hotkey_press (PyKey.special "f6") 0 initEngine).1, false) :=
  C7_rate_limit (PyKey.special "f6") 0 (1/20) initEngine rfl (by decide) (by norm_num)

/-- C9: calling `start_hotkey_capture` while a capture is already in
progress is refused: the call takes the already-capturing branch and the
whole engine state, the existing hotkey bindings and the recorded capture
target included, is unchanged. -/
theorem C9_rebind_exclusion (s : Engine) (target : String)
    (h : s.listening_for_hotkey = true) :
    start_hotkey_capture s target = (s, CaptureOutcome.alreadyCapturing) := by
  simp [start_hotkey_capture, h]

/-- Witness for C9: beginning a rebind for clicker 2 while the rebind of
clicker 1 is still capturing is refused and changes nothing. -/
theorem C9_rebind_exclusion_witness :
    start_hotkey_capture (start_hotkey_capture initEngine "clicker1").1 "clicker2"
      = ((start_hotkey_capture initEngine "clicker1").1, CaptureOutcome.alreadyCapturing) :=
  C9_rebind_exclusion _ "clicker2" (by decide)

/-- The `stable` component of the parsed tuple is exactly the absence of a
pre-release suffix. -/
theorem stable_iff_no_suffix (s : String) :
    (parse_version s).stable = !(hasPreSuffix s) := by
  simp [parse_version, hasPreSuffix]

/-- C3: the version ordering of `_version_newer` matches the spec: the
four quoted examples hold, and in general, for ASCII version strings with
equal parsed major.minor.patch (ASCII is the domain on which the embedded
parser, PEP 515 underscore grouping included, provably coincides with the
Python one), a build without a pre-release suffix is strictly newer than
one with a suffix, and of two suffixed builds the one whose suffix
contains the larger extracted number is newer. -/
theorem C3_version_ordering :
    version_newer "1.4.0" "1.4.0-beta" = true ∧
    version_newer "1.4.0-beta2" "1.4.0-beta1" = true ∧
    version_newer "1.0.0" "1.0.0" = false ∧
    version_newer "v1.1.0" "1.0.0" = true ∧
    (∀ a b : String, isAsciiString a = true → isAsciiString b = true →
      a ≠ "" → b ≠ "" →
      (parse_version a).major = (parse_version b).major →
      (parse_version a).minor = (parse_version b).minor →
      (parse_version a).patch = (parse_version b).patch →
      hasPreSuffix a = false → hasPreSuffix b = true →
      version_newer a b = true) ∧
    (∀ a b : String, isAsciiString a = true → isAsciiString b = true →
      a ≠ "" → b ≠ "" →
      (parse_version a).major = (parse_version b).major →
      (parse_version a).minor = (parse_version b).minor →
      (parse_version a).patch = (parse_version b).patch →
      hasPreSuffix a = true → hasPreSuffix b = true →
      (parse_version b).preNum < (parse_version a).preNum →
      version_newer a b = true) := by
  refine ⟨by decide, by decide, by decide, by decide, ?_, ?_⟩
  · intro a b hAa hAb ha hb hmaj hmin hpat hsa hsb
    have hta : (parse_version a).stable = true := by
      rw [stable_iff_no_suffix, hsa]; rfl
    have htb : (parse_version b).stable = false := by
      rw [stable_iff_no_suffix, hsb]; rfl
    simp [version_newer, ha, hb, vGT, hmaj, hmin, hpat, hta, htb, boolGT]
  · intro a b hAa hAb ha hb hmaj hmin hpat hsa hsb hnum
    have hta : (parse_version a).stable = false := by
      rw [stable_iff_no_suffix, hsa]; rfl
    have htb : (parse_version b).stable = false := by
      rw [stable_iff_no_suffix, hsb]; rfl
    simp [version_newer, ha, hb, vGT, hmaj, hmin, hpat, hta, htb, hnum]

/-- Witness for C3: the two general clauses instantiated at concrete
ASCII versions of equal major.minor.patch. -/
theorem C3_version_ordering_witness :
    version_newer "2.3.1" "2.3.1-rc4" = true ∧
    version_newer "2.3.1-rc4" "2.3.1-rc2" = true :=
  ⟨C3_version_ordering.2.2.2.2.1 "2.3.1" "2.3.1-rc4"
      (by decide) (by decide) (by decide) (by decide) (by decide) (by decide) (by decide)
      (by decide) (by decide),
   C3_version_ordering.2.2.2.2.2 "2.3.1-rc4" "2.3.1-rc2"
      (by decide) (by decide) (by decide) (by decide) (by decide) (by decide) (by decide)
      (by decide) (by decide) (by decide)⟩

/-- C4: serializing any key of the `KeyIdentity` domain (an enum key, or a
character key holding one character) and deserializing the result gives
back the same key; and deserializing any of the malformed shapes the claim
lists yields the documented default F6 instead of failing. -/
theorem C4_key_roundtrip :
    (∀ k : PyKey, ValidKey k → deserialize_key (serialize_key k) = k) ∧
    (∀ j : JVal, MalformedKeyData j → deserialize_key j = PyKey.special "f6") := by
  have hne1 : ("type" : String) ≠ "name" := by decide
  have hne2 : ("char" : String) ≠ "special" := by decide
  have hne3 : ("type" : String) ≠ "char" := by decide
  constructor
  · intro k hk
    cases k with
    | special n =>
        have hn : n ∈ keyNames := hk
        simp [serialize_key, deserialize_key, dictGet, hne1, hn]
    | code c =>
        obtain ⟨ch, rfl, hlen⟩ := hk
        simp [serialize_key, deserialize_key, dictGet, hne3, hne2, hlen]
  · intro j hj
    rcases hj with hnd | ⟨fields, rfl, hcase⟩
    · cases j with
      | jobj fields => exact absurd rfl (hnd fields)
      | jnull => rfl
      | jbool b => rfl
      | jnum n => rfl
      | jstr s => rfl
      | jarr xs => rfl
    · rcases hcase with ⟨v, hv, hns⟩ | ⟨t, ht, ht1, ht2⟩ | ⟨hty, hname⟩ | ⟨hty, hc⟩
      · cases v with
        | jstr s => exact absurd rfl (hns s)
        | jnull => simp [deserialize_key, hv]
        | jbool b => simp [deserialize_key, hv]
        | jnum n => simp [deserialize_key, hv]
        | jarr xs => simp [deserialize_key, hv]
        | jobj f2 => simp [deserialize_key, hv]
      · simp [deserialize_key, ht, ht1, ht2]
      · rcases hname with hnone | ⟨v, hv, hns⟩
        · have hf6 : ("f6" : String) ∈ keyNames := by decide
          simp [deserialize_key, hty, hnone, hf6]
        · cases v with
          | jstr s => exact absurd rfl (hns s)
          | jnull => simp [deserialize_key, hty, hv]
          | jbool b => simp [deserialize_key, hty, hv]
          | jnum n => simp [deserialize_key, hty, hv]
          | jarr xs => simp [deserialize_key, hty, hv]
          | jobj f2 => simp [deserialize_key, hty, hv]
      · rcases hc with hnone | ⟨v, hv, hns⟩ | ⟨c, hcs, hclen⟩
        · simp [deserialize_key, hty, hne2, hnone]
        · cases v with
          | jstr s => exact absurd rfl (hns s)
          | jnull => simp [deserialize_key, hty, hne2, hv]
          | jbool b => simp [deserialize_key, hty, hne2, hv]
          | jnum n => simp [deserialize_key, hty, hne2, hv]
          | jarr xs => simp [deserialize_key, hty, hne2, hv]
          | jobj f2 => simp [deserialize_key, hty, hne2, hv]
        · simp [deserialize_key, hty, hne2, hcs, hclen]

/-- Witness for C4: a concrete round-trip of the F7 key, and the default
on a concrete malformed (non-dict) input. -/
theorem C4_key_roundtrip_witness :
    deserialize_key (serialize_key (PyKey.special "f7")) = PyKey.special "f7" ∧
    deserialize_key (JVal.jstr "oops") = PyKey.special "f6" :=
  ⟨C4_key_roundtrip.1 _ (by decide),
   C4_key_roundtrip.2 _ (Or.inl fun fields h => JVal.noConfusion h)⟩

/-- C2: when the computed SHA-256 of the downloaded bytes differs from the
expected checksum, `_apply_update` ends with the security-error outcome
and the file system is exactly as before: the current artifact is
byte-for-byte unchanged, no backup is made, and no temp file is created
or left behind. -/
theorem C2_checksum_mismatch_atomic (hash : List Nat → String)
    (body expected : String) (content written : List Nat)
    (writeOk backupOk replaceOk : Bool) (fs : UpdateFS)
    (hbody : parseChecksumBody body = some expected)
    (hvalid : validChecksum expected = true)
    (hmismatch : pyLower (hash content) ≠ expected) :
    apply_update hash (.ok body) (.ok content) writeOk written backupOk replaceOk fs
      = ⟨.securityError expected (pyLower (hash content)), fs, true⟩ := by
  simp [apply_update, hbody, hvalid, hmismatch]

/-- Witness for C2 at a concrete mismatch: expected checksum all-a, hash
of the downloaded bytes all-b; nothing in the file system changes. -/
theorem C2_checksum_mismatch_atomic_witness :
    apply_update
        (fun _ => "bbbbbbbbbbbbbbbbbbbbbbbbbbbbbbbbbbbbbbbbbbbbbbbbbbbbbbbbbbbbbbbb")
        (.ok "aaaaaaaaaaaaaaaaaaaaaaaaaaaaaaaaaaaaaaaaaaaaaaaaaaaaaaaaaaaaaaaa")
        (.ok [1, 2, 3]) true [] true true ⟨[7, 7], none, none⟩
      = ⟨.securityError
            "aaaaaaaaaaaaaaaaaaaaaaaaaaaaaaaaaaaaaaaaaaaaaaaaaaaaaaaaaaaaaaaa"
            (pyLower "bbbbbbbbbbbbbbbbbbbbbbbbbbbbbbbbbbbbbbbbbbbbbbbbbbbbbbbbbbbbbbbb"),
         ⟨[7, 7], none, none⟩, true⟩ :=
  C2_checksum_mismatch_atomic _ _ _ _ _ true true true _
    (by decide) (by decide) (by decide)

/-- C8 counterexample: with the checksum resource present but malformed
(body `zz`), the update does abort before downloading, but its outcome is
the generic unexpected-error dialog, not the dedicated
update-aborted-unverifiable warning the claim names for this case. -/
theorem C8_fail_closed_counterexample :
    (apply_update (fun _ => "") (.ok "zz") (.ok []) true [] true true
        ⟨[], none, none⟩).outcome ≠ UpdateOutcome.abortedNoChecksum ∧
    (apply_update (fun _ => "") (.ok "zz") (.ok []) true [] true true
        ⟨[], none, none⟩).outcome
      = UpdateOutcome.failedUnexpected
          "ValueError: Invalid checksum format - not a valid SHA256 hash" := by
  constructor <;> decide

/-- C8 (amended): the update fails closed before fetching the artifact in
all three unverifiable cases, performing no file-system mutation: an
absent checksum resource (HTTP 404) gives the dedicated
update-aborted-unverifiable warning, while a checksum body with no token
or whose first token is not 64 lowercase hex characters raises out of the
checksum block and surfaces as the generic update-failed error dialog;
none of these paths downloads or installs anything. -/
theorem C8_fail_closed_amended (hash : List Nat → String)
    (downloadResp : FetchResult (List Nat)) (writeOk : Bool) (written : List Nat)
    (backupOk replaceOk : Bool) (fs : UpdateFS) :
    (apply_update hash (.httpError 404) downloadResp writeOk written backupOk replaceOk fs
       = ⟨.abortedNoChecksum, fs, false⟩) ∧
    (∀ body, parseChecksumBody body = none →
       apply_update hash (.ok body) downloadResp writeOk written backupOk replaceOk fs
         = ⟨.failedUnexpected "IndexError: list index out of range", fs, false⟩) ∧
    (∀ body expected, parseChecksumBody body = some expected →
       validChecksum expected = false →
       apply_update hash (.ok body) downloadResp writeOk written backupOk replaceOk fs
         = ⟨.failedUnexpected "ValueError: Invalid checksum format - not a valid SHA256 hash",
            fs, false⟩) := by
  refine ⟨by simp [apply_update], ?_, ?_⟩
  · intro body hb
    simp [apply_update, hb]
  · intro body expected hb hv
    simp [apply_update, hb, hv]

/-- Witness for C8 (amended) at concrete inputs: a whitespace-only
checksum body aborts with the generic failure outcome, a 404 aborts with
the dedicated warning, and neither touches the file system. -/
theorem C8_fail_closed_amended_witness :
    apply_update (fun _ => "") (.ok "  ") (.ok []) true [] true true ⟨[9], none, none⟩
      = ⟨.failedUnexpected "IndexError: list index out of range", ⟨[9], none, none⟩, false⟩ :=
  (C8_fail_closed_amended _ _ _ _ _ _ ⟨[9], none, none⟩).2.1 "  " (by decide)

/-- C10: an event suppressed by the rate limiter leaves the whole engine
state unchanged - in particular no running flag changes and the
last-seen-time entry of the key is not refreshed, so a dropped press does
not extend the cooldown window seen by a later press. -/
theorem C10_suppressed_frame (k : PyKey) (now : ℚ) (s : Engine)
    (h : rateSuppressed s (pyStr k) now = true) :
    on_hotkey_press k now s = (s, false) := by
  simp [on_hotkey_press, h]

/-- Witness for C10: with F6 last seen at time 0, an F6 press at time 0
(within the cooldown) is dropped and the state is exactly preserved. -/
theorem C10_suppressed_frame_witness :
    on_hotkey_press (PyKey.special "f6") 0
        { initEngine with last_hotkey_time := [("Key.f6", 0)] }
      = ({ initEngine with last_hotkey_time := [("Key.f6", 0)] }, false) :=
  C10_suppressed_frame _ 0 _ (by
    have hl : lookupTime
        ({ initEngine with last_hotkey_time := [("Key.f6", 0)] } : Engine).last_hotkey_time
        (pyStr (PyKey.special "f6")) = some 0 := by decide
    simp only [rateSuppressed, hl, decide_eq_true_eq]
    norm_num [initEngine])

end Autoclicker
